import Mathlib

/-!
Shallow embedding of `src/Sigil/Exporters/ExportEPUB.cpp` (Sigil's EPUB
packaging pipeline): the ZIP archive writer `SaveFolderAsEpubToLocation`,
the font obfuscation dispatcher `ObfuscateFonts`, the encryption manifest
step `CreateEncryptionXML`, and the export orchestrator `WriteBook`.

Filesystem and zip-library effects are modelled by explicit success flags
and read-result lists carried by the inputs; every error path of the source
is an `Except.error` of the corresponding exception kind.  Streamed file
bytes are not tracked (only the sizes passed to each archive write call);
no property below depends on streamed byte values.
-/

/-- zlib return code for success (`Z_OK`). -/
def Z_OK : Int := 0

/-- zlib compression method constant `Z_NO_COMPRESSION` (store). -/
def Z_NO_COMPRESSION : Int := 0

/-- zlib compression method constant `Z_DEFLATED`. -/
def Z_DEFLATED : Int := 8

/-- zlib compression level constant `Z_DEFAULT_COMPRESSION` (maps to effective level 6). -/
def Z_DEFAULT_COMPRESSION : Int := -1

/-- The EPUB mime type string written as the first archive entry
(`EPUB_MIME_TYPE` in the source). -/
def EPUB_MIME_TYPE : String := "application/epub+zip"

/-- Name of the encryption manifest file (`ENCRYPTION_XML_FILE_NAME`). -/
def ENCRYPTION_XML_FILE_NAME : String := "encryption.xml"

/-- Modelled from the spec: `ADOBE_FONT_ALGO_ID` is declared in
`sigil_constants` which is not part of the packaged sources; the spec only
requires it to be the distinguished Adobe obfuscation algorithm identifier
string, compared for equality against a font's algorithm tag. -/
def ADOBE_FONT_ALGO_ID : String := "http://ns.adobe.com/pdf/enc#RC"

/-- The exception kinds thrown by the packaging core (`CannotOpenFile` and
`CannotStoreFile`, each carrying the `errinfo_file_fullpath` payload). -/
inductive PackagingError where
  | cannotOpenFile (path : String)
  | cannotStoreFile (path : String)
deriving DecidableEq

/-- Byte values of an ASCII string, as written by `zipWriteInFileInZip`
on the UTF-8 bytes of a `QString` (all strings involved are ASCII). -/
def asciiBytes (s : String) : List Nat := s.data.map Char.toNat

/-- Fuel-indexed worker for `QString::remove(const QString and)`: repeatedly
find the next occurrence of `needle` and delete it, resuming the search at
the deletion position (Qt semantics).  Fuel `s.length` always suffices
because every step consumes at least one character. -/
def listRemoveAllFuel (needle : List Char) : Nat → List Char → List Char
  | _, [] => []
  | 0, l => l
  | Nat.succ n, c :: rest =>
    if !needle.isEmpty && List.isPrefixOf needle (c :: rest) then
      listRemoveAllFuel needle n (rest.drop (needle.length - 1))
    else
      c :: listRemoveAllFuel needle n rest

/-- `QString::remove(const QString and)`: delete every occurrence of
`needle` from `s`, searching left to right. -/
def qstringRemove (s : String) (needle : String) : String :=
  String.mk (listRemoveAllFuel needle.data s.data.length s.data)

/-- The `while (relpath.startsWith("/")) relpath = relpath.remove(0, 1);`
loop of the source: drop every leading forward slash. -/
def stripLeadingSlashes (s : String) : String :=
  String.mk (s.data.dropWhile (fun c => c = '/'))

/-- The entry name computed by the source for a file at absolute path
`filePath` under staging root `fullfolderpath`:
`it.filePath().remove(fullfolderpath)` followed by the leading-slash strip. -/
def relPathOf (fullfolderpath : String) (filePath : String) : String :=
  stripLeadingSlashes (qstringRemove filePath fullfolderpath)

/-- Reference definition taken from the spec wording, for comparison with
`relPathOf`: the path of a file relative to the staged directory, with
forward-slash separators and no leading slash, i.e. the absolute path with
the staging-root prefix (and any following slashes) dropped. -/
def specRootRelativePath (root : String) (p : String) : String :=
  String.mk ((p.data.drop root.data.length).dropWhile (fun c => c = '/'))

/-- A regular readable file yielded by the `QDirIterator` over the staged
directory.  `filePath` and `fileName` model `it.filePath()` and
`it.fileName()`; `openOk` models `dfile.open(QIODevice::ReadOnly)`;
`reads` is the successive `qint64` return values of `dfile.read`
(exhaustion of the list models end of file, i.e. a `0` return);
`openEntryOk`, `writeOks` and `closeEntryOk` model the `Z_OK` outcomes of
`zipOpenNewFileInZip4_64`, each `zipWriteInFileInZip` call and the final
`zipCloseFileInZip` (exhaustion of `writeOks` models a succeeding write). -/
structure SrcFile where
  filePath : String
  fileName : String
  openOk : Bool
  reads : List Int
  openEntryOk : Bool
  writeOks : List Bool
  closeEntryOk : Bool
deriving DecidableEq

/-- The staged directory handed to the archive writer: its absolute path
and the regular readable files found by the recursive iterator, in
iteration order. -/
structure StagedFolder where
  fullfolderpath : String
  files : List SrcFile
deriving DecidableEq

/-- Outcomes of the archive-level zip calls: `zipOpen64` on the
destination, and `zipOpenNewFileInZip64` / `zipWriteInFileInZip` for the
mimetype entry. -/
structure ZipEnv where
  zipOpenOk : Bool
  mimeOpenOk : Bool
  mimeWriteOk : Bool
deriving DecidableEq

/-- An entry of the produced archive, recording the arguments the source
passes when opening it and the data written into it.  `content` holds the
byte values when the model tracks them (the mimetype entry); `chunkLens`
holds the byte count of each `zipWriteInFileInZip` call. -/
structure ZipEntry where
  name : String
  method : Int
  level : Int
  extraLocalLen : Nat
  extraGlobalLen : Nat
  zip64 : Int
  flagBase : Nat
  content : List Nat
  chunkLens : List Nat
deriving DecidableEq

/-- The mimetype entry as the source opens and writes it:
`zipOpenNewFileInZip64(zfile, "mimetype", NULL, NULL, 0, NULL, 0, NULL,
Z_NO_COMPRESSION, 0, 0)` followed by one write of
`strlen(EPUB_MIME_TYPE)` bytes. -/
def mimeEntry : ZipEntry :=
  { name := "mimetype"
    method := Z_NO_COMPRESSION
    level := 0
    extraLocalLen := 0
    extraGlobalLen := 0
    zip64 := 0
    flagBase := 0
    content := asciiBytes EPUB_MIME_TYPE
    chunkLens := [(asciiBytes EPUB_MIME_TYPE).length] }

/-- Conversion of a `qint64` read result to the `unsigned int read`
variable of the source: truncation modulo 2^32 (two's complement). -/
def toUnsignedInt (r : Int) : Nat := (r % (2 ^ 32)).toNat

/-- The streaming loop of the source for one file:
`while ((read = dfile.read(buff, BUFF_SIZE)) > 0) { if (zipWriteInFileInZip(...) != Z_OK) throw; }`.
Returns the sizes written and the final value of the `unsigned int read`
variable (the value that made the loop exit). -/
def streamFile (relpath : String) :
    List Int → List Bool → List Nat → Except PackagingError (List Nat × Nat)
  | [], _, acc => .ok (acc.reverse, 0)
  | r :: rs, writeOks, acc =>
    let readU := toUnsignedInt r
    if readU > 0 then
      match writeOks with
      | [] => streamFile relpath rs [] (readU :: acc)
      | w :: ws =>
        if w then
          streamFile relpath rs ws (readU :: acc)
        else
          .error (.cannotStoreFile relpath)
    else
      .ok (acc.reverse, readU)

/-- Archiving of one staged file (loop body of
`SaveFolderAsEpubToLocation`): open the entry with
`zipOpenNewFileInZip4_64(zfile, relpath, NULL, NULL, 0, NULL, 0, NULL,
Z_DEFLATED, 8, 0, 15, 8, Z_DEFAULT_STRATEGY, NULL, 0, 0, 0x800, 0)`;
open the disk file; stream it; run the source's (unsigned) `read < 0`
check; close the entry.  Every thrown exception also closes the entry and
the archive in the source, modelled by aborting with the error. -/
def processFile (fullfolderpath : String) (f : SrcFile) :
    Except PackagingError ZipEntry :=
  let relpath := relPathOf fullfolderpath f.filePath
  if !f.openEntryOk then
    .error (.cannotStoreFile relpath)
  else if !f.openOk then
    .error (.cannotOpenFile f.fileName)
  else
    match streamFile relpath f.reads f.writeOks [] with
    | .error e => .error e
    | .ok (chunks, lastReadU) =>
      if lastReadU < 0 then
        .error (.cannotStoreFile relpath)
      else if !f.closeEntryOk then
        .error (.cannotStoreFile relpath)
      else
        .ok { name := relpath
              method := Z_DEFLATED
              level := 8
              extraLocalLen := 0
              extraGlobalLen := 0
              zip64 := 0
              flagBase := 0x800
              content := []
              chunkLens := chunks }

/-- The iterator loop of `SaveFolderAsEpubToLocation`: archive each staged
file in order, aborting on the first error. -/
def processFiles (root : String) : List SrcFile → Except PackagingError (List ZipEntry)
  | [] => .ok []
  | f :: fs =>
    match processFile root f with
    | .error e => .error e
    | .ok entry =>
      match processFiles root fs with
      | .error e => .error e
      | .ok es => .ok (entry :: es)

/-- `ExportEPUB::SaveFolderAsEpubToLocation`: open the destination archive,
write the mimetype entry first, then archive every staged file; on success
the archive is closed and the produced entry list returned in order. -/
def SaveFolderAsEpubToLocation (env : ZipEnv) (folder : StagedFolder)
    (fullfilepath : String) : Except PackagingError (List ZipEntry) :=
  if !env.zipOpenOk then
    .error (.cannotOpenFile fullfilepath)
  else if !env.mimeOpenOk then
    .error (.cannotStoreFile ("mimetype"))
  else if !env.mimeWriteOk then
    .error (.cannotStoreFile ("mimetype"))
  else
    match processFiles folder.fullfolderpath folder.files with
    | .error e => .error e
    | .ok es => .ok (mimeEntry :: es)

/-- A font resource as seen by `ObfuscateFonts`: its obfuscation algorithm
tag (`GetObfuscationAlgorithm`, empty meaning none) and its path relative
to the publication root (`GetRelativePathToRoot`). -/
structure FontResource where
  obfuscationAlgorithm : String
  relativePathToRoot : String
deriving DecidableEq

/-- One invocation of `FontObfuscation::ObfuscateFile(font_path, algorithm,
key)` performed by `ObfuscateFonts`. -/
structure ObfuscationCall where
  fontPath : String
  algorithm : String
  key : String
deriving DecidableEq

/-- Loop body of `ExportEPUB::ObfuscateFonts` for one font resource:
`continue` when the algorithm tag is empty, otherwise obfuscate at the
font's staged path with the UUID identifier as key for the Adobe
algorithm and the main publication identifier otherwise. -/
def obfuscationCallFor (uuid_id : String) (main_id : String)
    (fullfolderpath : String) (f : FontResource) : Option ObfuscationCall :=
  if f.obfuscationAlgorithm = "" then
    none
  else if f.obfuscationAlgorithm = ADOBE_FONT_ALGO_ID then
    some { fontPath := fullfolderpath ++ "/" ++ f.relativePathToRoot
           algorithm := f.obfuscationAlgorithm
           key := uuid_id }
  else
    some { fontPath := fullfolderpath ++ "/" ++ f.relativePathToRoot
           algorithm := f.obfuscationAlgorithm
           key := main_id }

/-- `ExportEPUB::ObfuscateFonts`: iterate over the book's font resources
and emit the obfuscation calls performed, in order.  `uuid_id` models
`GetOPF().GetUUIDIdentifierValue()` and `main_id` models
`GetPublicationIdentifier()`. -/
def ObfuscateFonts (uuid_id : String) (main_id : String)
    (fullfolderpath : String) (fonts : List FontResource) : List ObfuscationCall :=
  fonts.filterMap (obfuscationCallFor uuid_id main_id fullfolderpath)

/-- Effect outcomes for `CreateEncryptionXML`: whether the
`QTemporaryFile` opens (with its name for the error payload) and whether
the `QFile::copy` into the staged `META-INF` folder succeeds. -/
structure EncEnv where
  tempOpenOk : Bool
  tempFileName : String
  copyOk : Bool
deriving DecidableEq

/-- Observable outcome of `CreateEncryptionXML`: the destination path of
the manifest and whether the copy actually materialized it there. -/
structure EncOutcome where
  manifestPath : String
  manifestMaterialized : Bool
deriving DecidableEq

/-- `ExportEPUB::CreateEncryptionXML`: open a temporary file (throwing
`CannotOpenFile` on failure), write the encryption XML into it, flush, and
`QFile::copy` it to `fullfolderpath + "/" + ENCRYPTION_XML_FILE_NAME`.
The source discards the boolean result of `QFile::copy`, so the function
returns normally whether or not the copy succeeded. -/
def CreateEncryptionXML (env : EncEnv) (fullfolderpath : String) :
    Except PackagingError EncOutcome :=
  if !env.tempOpenOk then
    .error (.cannotOpenFile env.tempFileName)
  else
    .ok { manifestPath := fullfolderpath ++ "/" ++ ENCRYPTION_XML_FILE_NAME
          manifestMaterialized := env.copyOk }

/-- Steps of `ExportEPUB::WriteBook`, recorded as an event trace. -/
inductive ExportEvent where
  | ensureUUIDIdentifier
  | addVersionMeta
  | saveResources
  | createTempFolder
  | createPublication
  | obfuscateFonts
  | saveEpub
  | removeTempFolder
deriving DecidableEq

/-- Outcome flags for the fallible stages of an export run:
whether the book has obfuscated fonts, and whether `CreatePublication`,
`ObfuscateFonts` and `SaveFolderAsEpubToLocation` complete without
throwing. -/
structure ExportEnv where
  hasObfuscatedFonts : Bool
  createPublicationOk : Bool
  obfuscateOk : Bool
  saveOk : Bool
deriving DecidableEq

/-- Body of `WriteBook` between construction of the `TempFolder` and the
end of its scope: `CreatePublication`, the conditional `ObfuscateFonts`,
then `SaveFolderAsEpubToLocation`; each stage's exception aborts the
remaining stages. -/
def exportBody (env : ExportEnv) : Except PackagingError Unit × List ExportEvent :=
  if !env.createPublicationOk then
    (.error (.cannotOpenFile ("staging")), [ExportEvent.createPublication])
  else
    let obfEvents := if env.hasObfuscatedFonts then [ExportEvent.obfuscateFonts] else []
    if env.hasObfuscatedFonts && !env.obfuscateOk then
      (.error (.cannotOpenFile ("font")), ExportEvent.createPublication :: obfEvents)
    else if !env.saveOk then
      (.error (.cannotStoreFile ("epub")),
        ExportEvent.createPublication :: obfEvents ++ [ExportEvent.saveEpub])
    else
      (.ok (), ExportEvent.createPublication :: obfEvents ++ [ExportEvent.saveEpub])

/-- `ExportEPUB::WriteBook`: the preparation steps, then the body inside
the `TempFolder` scope.  Modelled from the spec: the `TempFolder` class
lives outside the packaged sources; per the spec it is a scoped resource
whose destructor removes the temporary directory on every exit from the
scope, normal or exceptional, so `removeTempFolder` is appended to the
trace on every path. -/
def WriteBook (env : ExportEnv) : Except PackagingError Unit × List ExportEvent :=
  let pre :=
    (if env.hasObfuscatedFonts then [ExportEvent.ensureUUIDIdentifier] else [])
      ++ [ExportEvent.addVersionMeta, ExportEvent.saveResources]
  let body := exportBody env
  (body.1, pre ++ [ExportEvent.createTempFolder] ++ body.2 ++ [ExportEvent.removeTempFolder])

/-- Every entry produced by archiving one staged file records exactly the
arguments of the `zipOpenNewFileInZip4_64` call of the source. -/
theorem processFile_ok_shape (root : String) (f : SrcFile) (entry : ZipEntry)
    (h : processFile root f = .ok entry) :
    entry.name = relPathOf root f.filePath ∧ entry.method = Z_DEFLATED ∧
    entry.level = 8 ∧ entry.zip64 = 0 ∧ entry.extraLocalLen = 0 ∧
    entry.extraGlobalLen = 0 ∧ entry.flagBase = 0x800 := by
  unfold processFile at h
  dsimp only at h
  split at h
  · simp at h
  split at h
  · simp at h
  split at h
  · simp at h
  split at h
  · simp at h
  split at h
  · simp at h
  cases h
  exact ⟨rfl, rfl, rfl, rfl, rfl, rfl, rfl⟩

/-- Every entry of a successful iterator run comes from archiving one of
the staged files. -/
theorem processFiles_ok_mem (root : String) :
    ∀ (fs : List SrcFile) (es : List ZipEntry),
      processFiles root fs = .ok es →
      ∀ e ∈ es, ∃ f, f ∈ fs ∧ processFile root f = .ok e := by
  intro fs
  induction fs with
  | nil =>
    intro es h e he
    simp only [processFiles] at h
    cases h
    simp at he
  | cons f fs ih =>
    intro es h e he
    simp only [processFiles] at h
    cases hf : processFile root f with
    | error err => rw [hf] at h; simp at h
    | ok entry =>
      rw [hf] at h
      cases hfs : processFiles root fs with
      | error err => rw [hfs] at h; simp at h
      | ok rest =>
        rw [hfs] at h
        simp only [Except.ok.injEq] at h
        subst h
        rcases List.mem_cons.mp he with he | he
        · exact ⟨f, List.mem_cons_self f fs, he ▸ hf⟩
        · rcases ih rest hfs e he with ⟨g, hg, hge⟩
          exact ⟨g, List.mem_cons_of_mem f hg, hge⟩

/-- A successful iterator run names its entries by the source's relative
path computation, in iteration order. -/
theorem processFiles_ok_names (root : String) :
    ∀ (fs : List SrcFile) (es : List ZipEntry),
      processFiles root fs = .ok es →
      es.map ZipEntry.name = fs.map (fun f => relPathOf root f.filePath) := by
  intro fs
  induction fs with
  | nil =>
    intro es h
    simp only [processFiles] at h
    cases h
    simp
  | cons f fs ih =>
    intro es h
    simp only [processFiles] at h
    cases hf : processFile root f with
    | error err => rw [hf] at h; simp at h
    | ok entry =>
      rw [hf] at h
      cases hfs : processFiles root fs with
      | error err => rw [hfs] at h; simp at h
      | ok rest =>
        rw [hfs] at h
        simp only [Except.ok.injEq] at h
        subst h
        simp only [List.map_cons]
        rw [(processFile_ok_shape root f entry hf).1, ih rest hfs]

/-- A successful archive write consists of the mimetype entry followed by
the entries of a successful iterator run over the staged files. -/
theorem save_ok_structure (env : ZipEnv) (folder : StagedFolder) (path : String)
    (entries : List ZipEntry)
    (h : SaveFolderAsEpubToLocation env folder path = .ok entries) :
    ∃ rest, entries = mimeEntry :: rest ∧
      processFiles folder.fullfolderpath folder.files = .ok rest := by
  unfold SaveFolderAsEpubToLocation at h
  split at h
  · simp at h
  split at h
  · simp at h
  split at h
  · simp at h
  cases hp : processFiles folder.fullfolderpath folder.files with
  | error e => rw [hp] at h; simp at h
  | ok es =>
    rw [hp] at h
    simp only [Except.ok.injEq] at h
    exact ⟨es, h.symm, rfl⟩

/-- Any error of the streaming loop is `CannotStoreFile` at the entry's
relative path. -/
theorem streamFile_error (relpath : String) :
    ∀ (rs : List Int) (ws : List Bool) (acc : List Nat) (e : PackagingError),
      streamFile relpath rs ws acc = .error e →
      e = .cannotStoreFile relpath := by
  intro rs
  induction rs with
  | nil => intro ws acc e h; simp [streamFile] at h
  | cons r rs ih =>
    intro ws acc e h
    simp only [streamFile] at h
    split at h
    · cases ws with
      | nil => exact ih [] _ e h
      | cons w ws =>
        dsimp only at h
        split at h
        · exact ih ws _ e h
        · simp only [Except.error.injEq] at h
          exact h.symm
    · simp at h

/-- An environment in which every zip-library and filesystem operation
succeeds. -/
def okEnv : ZipEnv := { zipOpenOk := true, mimeOpenOk := true, mimeWriteOk := true }

/-- A staged directory containing no files at all. -/
def emptyFolder : StagedFolder := { fullfolderpath := "/stage", files := [] }

/-- C1 counterexample: at a concrete staged directory with no files the
archive write succeeds, its first entry is the mimetype entry, and that
entry's content is the 20 ASCII bytes of `application/epub+zip` — not 21
bytes as the claim states. -/
theorem c1_counterexample :
    SaveFolderAsEpubToLocation okEnv emptyFolder ("/book.epub") = .ok [mimeEntry] ∧
    mimeEntry.name = "mimetype" ∧
    mimeEntry.content = asciiBytes EPUB_MIME_TYPE ∧
    mimeEntry.content.length = 20 ∧
    ¬ mimeEntry.content.length = 21 :=
  ⟨rfl, rfl, rfl, by decide, by decide⟩

/-- C1 (amended): for every successful archive write, the first entry is
named exactly `mimetype`, is stored with no compression and zero extra
field length, is written before any other entry, and its content is
exactly the 20 ASCII bytes of `application/epub+zip` with no trailing
newline. -/
theorem c1_mimetype_first_stored (env : ZipEnv) (folder : StagedFolder)
    (path : String) (entries : List ZipEntry)
    (h : SaveFolderAsEpubToLocation env folder path = .ok entries) :
    entries.head? = some mimeEntry ∧
    mimeEntry.name = "mimetype" ∧
    mimeEntry.method = Z_NO_COMPRESSION ∧
    mimeEntry.extraLocalLen = 0 ∧
    mimeEntry.extraGlobalLen = 0 ∧
    mimeEntry.content = asciiBytes EPUB_MIME_TYPE ∧
    mimeEntry.content.length = 20 ∧
    (∀ b ∈ mimeEntry.content, b < 128) ∧
    mimeEntry.content.getLast? ≠ some 10 := by
  obtain ⟨rest, hE, hp⟩ := save_ok_structure env folder path entries h
  subst hE
  exact ⟨rfl, rfl, rfl, rfl, rfl, rfl, by decide, by decide, by decide⟩

/-- C1 witness: the amended C1 theorem applied to a concrete successful
run over the empty staged directory. -/
theorem c1_mimetype_first_stored_witness :
    ([mimeEntry] : List ZipEntry).head? = some mimeEntry ∧
    mimeEntry.name = "mimetype" ∧
    mimeEntry.method = Z_NO_COMPRESSION ∧
    mimeEntry.extraLocalLen = 0 ∧
    mimeEntry.extraGlobalLen = 0 ∧
    mimeEntry.content = asciiBytes EPUB_MIME_TYPE ∧
    mimeEntry.content.length = 20 ∧
    (∀ b ∈ mimeEntry.content, b < 128) ∧
    mimeEntry.content.getLast? ≠ some 10 :=
  c1_mimetype_first_stored okEnv emptyFolder ("/book.epub") [mimeEntry] rfl

/-- A staged file whose single `dfile.read` call reports an error by
returning the `qint64` value `-1`. -/
def readErrorFile : SrcFile :=
  { filePath := "/stage/OEBPS/chapter.xhtml", fileName := "chapter.xhtml",
    openOk := true, reads := [-1], openEntryOk := true, writeOks := [],
    closeEntryOk := true }

/-- Staged directory containing only `readErrorFile`. -/
def readErrorFolder : StagedFolder :=
  { fullfolderpath := "/stage", files := [readErrorFile] }

/-- C2 (code bug): because the source stores `dfile.read`'s `qint64`
result in an `unsigned int`, a `-1` read error becomes 4294967295, which
is `> 0`, so the loop treats it as a successful read and writes it into
the archive, and the subsequent `read < 0` check can never fire.  On a
concrete staged file whose read returns `-1`, the archive write completes
successfully with a bogus 4294967295-byte chunk instead of aborting with
`CannotStoreFile` as the claim (and the source's own comment) requires. -/
theorem c2_read_error_ignored :
    toUnsignedInt (-1) = 4294967295 ∧
    SaveFolderAsEpubToLocation okEnv readErrorFolder ("/book.epub") =
      .ok [mimeEntry,
        { name := "OEBPS/chapter.xhtml", method := Z_DEFLATED, level := 8,
          extraLocalLen := 0, extraGlobalLen := 0, zip64 := 0, flagBase := 0x800,
          content := [], chunkLens := [4294967295] }] :=
  ⟨rfl, rfl⟩

/-- A small ordinary staged file archived successfully. -/
def cssFile : SrcFile :=
  { filePath := "/stage/OEBPS/styles.css", fileName := "styles.css",
    openOk := true, reads := [100, 0], openEntryOk := true, writeOks := [true],
    closeEntryOk := true }

/-- Staged directory containing only `cssFile`. -/
def cssFolder : StagedFolder := { fullfolderpath := "/stage", files := [cssFile] }

/-- The archive entry produced for `cssFile`. -/
def cssEntry : ZipEntry :=
  { name := "OEBPS/styles.css", method := Z_DEFLATED, level := 8,
    extraLocalLen := 0, extraGlobalLen := 0, zip64 := 0, flagBase := 0x800,
    content := [], chunkLens := [100] }

/-- C3 counterexample: on a concrete successful archive write the
non-mimetype entry is opened with the `zip64` argument `0`, so the
64-bit-capable entry header is not requested, contradicting the claim that
it is requested unconditionally. -/
theorem c3_counterexample :
    SaveFolderAsEpubToLocation okEnv cssFolder ("/book.epub") = .ok [mimeEntry, cssEntry] ∧
    cssEntry.zip64 = 0 ∧ ¬ cssEntry.zip64 = 1 :=
  ⟨rfl, rfl, by decide⟩

/-- C3 (amended): for every successful archive write, every entry —
mimetype and non-mimetype alike — is opened with the `zip64` argument
unconditionally `0` (the 64-bit-capable header is never requested),
regardless of the uncompressed size of the file. -/
theorem c3_zip64_never_requested (env : ZipEnv) (folder : StagedFolder)
    (path : String) (entries : List ZipEntry)
    (h : SaveFolderAsEpubToLocation env folder path = .ok entries) :
    ∀ e ∈ entries, e.zip64 = 0 := by
  obtain ⟨rest, hE, hp⟩ := save_ok_structure env folder path entries h
  subst hE
  intro e he
  rcases List.mem_cons.mp he with rfl | he
  · rfl
  · obtain ⟨f, _, hf⟩ := processFiles_ok_mem folder.fullfolderpath folder.files rest hp e he
    exact (processFile_ok_shape folder.fullfolderpath f e hf).2.2.2.1

/-- C3 witness: the amended C3 theorem applied to the concrete `cssFolder`
run, concluding for the concrete css entry. -/
theorem c3_zip64_never_requested_witness : cssEntry.zip64 = 0 :=
  c3_zip64_never_requested okEnv cssFolder ("/book.epub") [mimeEntry, cssEntry] rfl
    cssEntry (by simp)

/-- Another ordinary staged file archived successfully. -/
def xhtmlFile : SrcFile :=
  { filePath := "/stage/OEBPS/Text/intro.xhtml", fileName := "intro.xhtml",
    openOk := true, reads := [800, 0], openEntryOk := true, writeOks := [true],
    closeEntryOk := true }

/-- Staged directory containing only `xhtmlFile`. -/
def xhtmlFolder : StagedFolder := { fullfolderpath := "/stage", files := [xhtmlFile] }

/-- The archive entry produced for `xhtmlFile`. -/
def xhtmlEntry : ZipEntry :=
  { name := "OEBPS/Text/intro.xhtml", method := Z_DEFLATED, level := 8,
    extraLocalLen := 0, extraGlobalLen := 0, zip64 := 0, flagBase := 0x800,
    content := [], chunkLens := [800] }

/-- C4 counterexample: on a concrete successful archive write the
non-mimetype entry is opened with method deflate but compression level 8,
which is neither `Z_DEFAULT_COMPRESSION` (-1) nor zlib's effective
default level 6, contradicting the claim of a default compression level. -/
theorem c4_counterexample :
    SaveFolderAsEpubToLocation okEnv xhtmlFolder ("/book.epub") = .ok [mimeEntry, xhtmlEntry] ∧
    xhtmlEntry.method = Z_DEFLATED ∧ xhtmlEntry.level = 8 ∧
    ¬ xhtmlEntry.level = Z_DEFAULT_COMPRESSION ∧ ¬ xhtmlEntry.level = 6 :=
  ⟨rfl, rfl, rfl, by decide, by decide⟩

/-- C4 (amended): for every successful archive write, every non-mimetype
entry is opened with compression method deflate at fixed compression
level 8. -/
theorem c4_deflate_level_eight (env : ZipEnv) (folder : StagedFolder)
    (path : String) (entries : List ZipEntry)
    (h : SaveFolderAsEpubToLocation env folder path = .ok entries) :
    ∀ e ∈ entries.tail, e.method = Z_DEFLATED ∧ e.level = 8 := by
  obtain ⟨rest, hE, hp⟩ := save_ok_structure env folder path entries h
  subst hE
  intro e he
  simp only [List.tail_cons] at he
  obtain ⟨f, _, hf⟩ := processFiles_ok_mem folder.fullfolderpath folder.files rest hp e he
  have s := processFile_ok_shape folder.fullfolderpath f e hf
  exact ⟨s.2.1, s.2.2.1⟩

/-- C4 witness: the amended C4 theorem applied to the concrete
`xhtmlFolder` run. -/
theorem c4_deflate_level_eight_witness :
    xhtmlEntry.method = Z_DEFLATED ∧ xhtmlEntry.level = 8 :=
  c4_deflate_level_eight okEnv xhtmlFolder ("/book.epub") [mimeEntry, xhtmlEntry] rfl
    xhtmlEntry (by simp)

/-- Each font with a non-empty algorithm tag gives rise to the obfuscation
call selected by the source's key policy. -/
theorem obfuscate_mem_of_nonempty (uuid_id main_id folder : String)
    (fonts : List FontResource) (f : FontResource) (hf : f ∈ fonts)
    (hne : f.obfuscationAlgorithm ≠ "") :
    ({ fontPath := folder ++ "/" ++ f.relativePathToRoot,
       algorithm := f.obfuscationAlgorithm,
       key := if f.obfuscationAlgorithm = ADOBE_FONT_ALGO_ID then uuid_id else main_id } :
      ObfuscationCall) ∈ ObfuscateFonts uuid_id main_id folder fonts := by
  unfold ObfuscateFonts
  refine List.mem_filterMap.mpr ⟨f, hf, ?_⟩
  unfold obfuscationCallFor
  rw [if_neg hne]
  by_cases ha : f.obfuscationAlgorithm = ADOBE_FONT_ALGO_ID
  · rw [if_pos ha, if_pos ha]
  · rw [if_neg ha, if_neg ha]

/-- Every emitted obfuscation call has a non-empty algorithm tag and obeys
the key policy. -/
theorem obfuscate_calls_shape (uuid_id main_id folder : String)
    (fonts : List FontResource) :
    ∀ c ∈ ObfuscateFonts uuid_id main_id folder fonts,
      c.algorithm ≠ "" ∧
      c.key = if c.algorithm = ADOBE_FONT_ALGO_ID then uuid_id else main_id := by
  intro c hc
  obtain ⟨f, hf, hcall⟩ := List.mem_filterMap.mp hc
  unfold obfuscationCallFor at hcall
  split at hcall
  · simp at hcall
  · split at hcall
    · simp only [Option.some.injEq] at hcall
      subst hcall
      constructor
      · assumption
      · simp only []
        rw [if_pos (by assumption)]
    · simp only [Option.some.injEq] at hcall
      subst hcall
      constructor
      · assumption
      · simp only []
        rw [if_neg (by assumption)]

/-- Exactly the fonts with a non-empty algorithm tag are obfuscated;
empty-tagged fonts are skipped without affecting the rest. -/
theorem obfuscate_length (uuid_id main_id folder : String) :
    ∀ fonts : List FontResource,
      (ObfuscateFonts uuid_id main_id folder fonts).length =
        (fonts.filter (fun f => f.obfuscationAlgorithm ≠ "")).length := by
  intro fonts
  induction fonts with
  | nil => rfl
  | cons f fs ih =>
    simp only [ObfuscateFonts, List.filterMap_cons, List.filter_cons] at *
    by_cases he : f.obfuscationAlgorithm = ""
    · rw [obfuscationCallFor, if_pos he]
      simp [he, ih]
    · rw [obfuscationCallFor, if_neg he]
      by_cases ha : f.obfuscationAlgorithm = ADOBE_FONT_ALGO_ID
      · rw [if_pos ha]
        simp [he, ih]
      · rw [if_neg ha]
        simp [he, ih]

/-- C5: for every font resource processed by `ObfuscateFonts`, a font with
an empty algorithm tag is skipped without error (every emitted call has a
non-empty tag, and the number of calls equals the number of fonts with a
non-empty tag); a font tagged with the Adobe algorithm identifier is
obfuscated with the document's UUID-form identifier as the key; any other
non-empty tag is obfuscated with the general publication identifier as
the key. -/
theorem c5_font_key_selection (uuid_id main_id folder : String)
    (fonts : List FontResource) :
    (∀ f ∈ fonts, f.obfuscationAlgorithm ≠ "" →
      ({ fontPath := folder ++ "/" ++ f.relativePathToRoot,
         algorithm := f.obfuscationAlgorithm,
         key := if f.obfuscationAlgorithm = ADOBE_FONT_ALGO_ID then uuid_id else main_id } :
        ObfuscationCall) ∈ ObfuscateFonts uuid_id main_id folder fonts) ∧
    (∀ c ∈ ObfuscateFonts uuid_id main_id folder fonts,
      c.algorithm ≠ "" ∧
      c.key = if c.algorithm = ADOBE_FONT_ALGO_ID then uuid_id else main_id) ∧
    (ObfuscateFonts uuid_id main_id folder fonts).length =
      (fonts.filter (fun f => f.obfuscationAlgorithm ≠ "")).length :=
  ⟨fun f hf hne => obfuscate_mem_of_nonempty uuid_id main_id folder fonts f hf hne,
   obfuscate_calls_shape uuid_id main_id folder fonts,
   obfuscate_length uuid_id main_id folder fonts⟩

/-- A sample font list: one empty tag (skipped), one Adobe tag, one other
known tag. -/
def demoFonts : List FontResource :=
  [{ obfuscationAlgorithm := "", relativePathToRoot := "Fonts/plain.ttf" },
   { obfuscationAlgorithm := ADOBE_FONT_ALGO_ID, relativePathToRoot := "Fonts/a.ttf" },
   { obfuscationAlgorithm := "http://www.idpf.org/2008/embedding",
     relativePathToRoot := "Fonts/b.ttf" }]

/-- C5 witness: applying the C5 theorem to `demoFonts` shows the
Adobe-tagged font is obfuscated with the UUID identifier as key. -/
theorem c5_font_key_selection_witness :
    ({ fontPath := "/stage/Fonts/a.ttf", algorithm := ADOBE_FONT_ALGO_ID,
       key := "urn:uuid:1234" } : ObfuscationCall)
      ∈ ObfuscateFonts ("urn:uuid:1234") ("pub-id") ("/stage") demoFonts := by
  have h := (c5_font_key_selection ("urn:uuid:1234") ("pub-id") ("/stage") demoFonts).1
    { obfuscationAlgorithm := ADOBE_FONT_ALGO_ID, relativePathToRoot := "Fonts/a.ttf" }
    (by simp [demoFonts]) (by decide)
  simpa using h

/-- C6 (code bug): `CreateEncryptionXML` discards the boolean result of
`QFile::copy`; at a concrete input where the copy into the staged
`META-INF` folder fails, the function nevertheless returns success with
no manifest materialized, so the failure is silently ignored rather than
reported to the caller. -/
theorem c6_copy_failure_silent :
    CreateEncryptionXML
        { tempOpenOk := true, tempFileName := "/tmp/qt_temp.AB1234", copyOk := false }
        ("/stage/META-INF") =
      .ok { manifestPath := "/stage/META-INF/encryption.xml",
            manifestMaterialized := false } := rfl

/-- C7 (amended): when archiving one staged file fails, the surfaced error
attributes the relative path for the entry-open, write, and entry-close
failure classes (`CannotStoreFile`), but for a source-file-open failure it
attributes the file's base name (`it.fileName()`), not its relative
path. -/
theorem c7_error_path_classes (root : String) (f : SrcFile) (e : PackagingError)
    (h : processFile root f = .error e) :
    (e = PackagingError.cannotOpenFile f.fileName ∧ f.openOk = false) ∨
    e = PackagingError.cannotStoreFile (relPathOf root f.filePath) := by
  unfold processFile at h
  dsimp only at h
  split at h
  · right
    simp only [Except.error.injEq] at h
    exact h.symm
  split at h
  case isTrue hopen =>
    left
    simp only [Except.error.injEq] at h
    refine ⟨h.symm, ?_⟩
    simpa using hopen
  split at h
  case _ err heq =>
    right
    simp only [Except.error.injEq] at h
    subst h
    exact streamFile_error (relPathOf root f.filePath) f.reads f.writeOks [] err heq
  split at h
  · right
    simp only [Except.error.injEq] at h
    exact h.symm
  split at h
  · right
    simp only [Except.error.injEq] at h
    exact h.symm
  · simp at h

/-- A staged file in a subdirectory whose disk open fails. -/
def nestedUnopenable : SrcFile :=
  { filePath := "/stage/Text/chapter1.xhtml", fileName := "chapter1.xhtml",
    openOk := false, reads := [], openEntryOk := true, writeOks := [],
    closeEntryOk := true }

/-- C7 counterexample: for a nested staged file whose disk open fails, the
surfaced error carries the base name `chapter1.xhtml`, which differs from
the file's relative path `Text/chapter1.xhtml`, so the claim that every
failure class attributes the relative path is false. -/
theorem c7_counterexample :
    SaveFolderAsEpubToLocation okEnv
        { fullfolderpath := "/stage", files := [nestedUnopenable] } ("/book.epub") =
      .error (.cannotOpenFile ("chapter1.xhtml")) ∧
    relPathOf ("/stage") ("/stage/Text/chapter1.xhtml") = "Text/chapter1.xhtml" ∧
    ¬ ("chapter1.xhtml" : String) = "Text/chapter1.xhtml" :=
  ⟨rfl, rfl, by decide⟩

/-- A staged file at the folder root whose disk open fails. -/
def flatUnopenable : SrcFile :=
  { filePath := "/stage/notes.css", fileName := "notes.css",
    openOk := false, reads := [], openEntryOk := true, writeOks := [],
    closeEntryOk := true }

/-- C7 witness: the amended C7 theorem applied to a concrete file whose
disk open fails. -/
theorem c7_error_path_classes_witness :
    (PackagingError.cannotOpenFile ("notes.css") =
        PackagingError.cannotOpenFile flatUnopenable.fileName ∧
      flatUnopenable.openOk = false) ∨
    PackagingError.cannotOpenFile ("notes.css") =
      PackagingError.cannotStoreFile (relPathOf ("/stage") flatUnopenable.filePath) :=
  c7_error_path_classes ("/stage") flatUnopenable
    (PackagingError.cannotOpenFile ("notes.css")) rfl

/-- A staged file whose path contains the staging-root string `/t` a
second time, exercising the delete-every-occurrence behavior of
`QString::remove`. -/
def collideFile : SrcFile :=
  { filePath := "/t/a/tb", fileName := "tb", openOk := true, reads := [5, 0],
    openEntryOk := true, writeOks := [true], closeEntryOk := true }

/-- Staged directory `/t` containing only `collideFile`. -/
def collideFolder : StagedFolder := { fullfolderpath := "/t", files := [collideFile] }

/-- The archive entry produced for `collideFile`: both occurrences of
`/t` are deleted from `/t/a/tb`, giving entry name `ab`. -/
def collideEntry : ZipEntry :=
  { name := "ab", method := Z_DEFLATED, level := 8,
    extraLocalLen := 0, extraGlobalLen := 0, zip64 := 0, flagBase := 0x800,
    content := [], chunkLens := [5] }

/-- C8 counterexample: the source computes entry names with
`QString::remove`, which deletes every occurrence of the staging-root
string.  For root `/t` and file `/t/a/tb` the successful archive's entry
is named `ab`, while the file's root-relative path is `a/tb`, so the
claimed equality of entry names and root-relative paths fails. -/
theorem c8_counterexample :
    SaveFolderAsEpubToLocation okEnv collideFolder ("/book.epub") =
      .ok [mimeEntry, collideEntry] ∧
    collideEntry.name = "ab" ∧
    specRootRelativePath ("/t") ("/t/a/tb") = "a/tb" ∧
    ¬ ("ab" : String) = "a/tb" :=
  ⟨rfl, rfl, rfl, by decide⟩

/-- C8 (amended): provided the staging-root path string occurs in each
staged file's absolute path only as its leading prefix (so that deleting
every occurrence coincides with dropping the prefix), every successful
archive write's entry names are exactly `mimetype` followed by the
root-relative paths of the staged files in iteration order, each with
forward-slash separators and no leading slash. -/
theorem c8_entry_names_are_relative_paths (env : ZipEnv) (folder : StagedFolder)
    (path : String) (entries : List ZipEntry)
    (hrel : ∀ f ∈ folder.files,
      relPathOf folder.fullfolderpath f.filePath =
        specRootRelativePath folder.fullfolderpath f.filePath)
    (h : SaveFolderAsEpubToLocation env folder path = .ok entries) :
    entries.map ZipEntry.name =
      "mimetype" ::
        folder.files.map (fun f => specRootRelativePath folder.fullfolderpath f.filePath) := by
  obtain ⟨rest, hE, hp⟩ := save_ok_structure env folder path entries h
  subst hE
  have hn := processFiles_ok_names folder.fullfolderpath folder.files rest hp
  simp only [List.map_cons]
  rw [hn]
  congr 1
  exact List.map_congr_left hrel

/-- A well-behaved staged file for the C8 witness. -/
def wFile : SrcFile :=
  { filePath := "/stage/OEBPS/w.css", fileName := "w.css", openOk := true,
    reads := [7, 0], openEntryOk := true, writeOks := [true], closeEntryOk := true }

/-- Staged directory containing only `wFile`. -/
def wFolder : StagedFolder := { fullfolderpath := "/stage", files := [wFile] }

/-- The archive entry produced for `wFile`. -/
def wEntry : ZipEntry :=
  { name := "OEBPS/w.css", method := Z_DEFLATED, level := 8,
    extraLocalLen := 0, extraGlobalLen := 0, zip64 := 0, flagBase := 0x800,
    content := [], chunkLens := [7] }

/-- C8 witness: the amended C8 theorem applied to a concrete run whose
staging-root string occurs only as a prefix. -/
theorem c8_entry_names_are_relative_paths_witness :
    ([mimeEntry, wEntry].map ZipEntry.name) =
      "mimetype" ::
        wFolder.files.map (fun f => specRootRelativePath wFolder.fullfolderpath f.filePath) :=
  c8_entry_names_are_relative_paths okEnv wFolder ("/book.epub") [mimeEntry, wEntry]
    (by decide) rfl

/-- C9: for every export configuration — fonts obfuscated or not, and
every combination of staging, obfuscation, or archive-write failure — the
trace of `WriteBook` creates the temporary folder and removes it as the
last action before returning, on success and on every error path alike. -/
theorem c9_tempfolder_always_removed (env : ExportEnv) :
    (WriteBook env).2.getLast? = some ExportEvent.removeTempFolder ∧
    ExportEvent.createTempFolder ∈ (WriteBook env).2 := by
  obtain ⟨a, b, c, d⟩ := env
  cases a <;> cases b <;> cases c <;> cases d <;> decide

/-- C10: a font resource whose algorithm tag is non-empty and differs from
the Adobe identifier — including tags outside any known set — is always
obfuscated, keyed by the general publication identifier; it is never
rejected or skipped. -/
theorem c10_unknown_tag_uses_publication_id (uuid_id main_id folder : String)
    (fonts : List FontResource) (f : FontResource) (hf : f ∈ fonts)
    (hne : f.obfuscationAlgorithm ≠ "") (hna : f.obfuscationAlgorithm ≠ ADOBE_FONT_ALGO_ID) :
    ({ fontPath := folder ++ "/" ++ f.relativePathToRoot,
       algorithm := f.obfuscationAlgorithm, key := main_id } : ObfuscationCall)
      ∈ ObfuscateFonts uuid_id main_id folder fonts := by
  unfold ObfuscateFonts
  refine List.mem_filterMap.mpr ⟨f, hf, ?_⟩
  unfold obfuscationCallFor
  rw [if_neg hne, if_neg hna]

/-- A font resource with a made-up algorithm tag outside the known set. -/
def unknownFont : FontResource :=
  { obfuscationAlgorithm := "urn:example:made-up-obfuscation",
    relativePathToRoot := "Fonts/u.otf" }

/-- C10 witness: the C10 theorem applied to a concrete font with an
unrecognized algorithm tag. -/
theorem c10_unknown_tag_uses_publication_id_witness :
    ({ fontPath := "/stage/Fonts/u.otf", algorithm := "urn:example:made-up-obfuscation",
       key := "pub-id" } : ObfuscationCall)
      ∈ ObfuscateFonts ("urn:uuid:1234") ("pub-id") ("/stage") [unknownFont] :=
  c10_unknown_tag_uses_publication_id ("urn:uuid:1234") ("pub-id") ("/stage")
    [unknownFont] unknownFont (by simp) (by decide) (by decide)
